import Mathlib

/-!
Shallow embedding of the onboarding query service (onb.py, onb_corporate.py,
onb_corporate2.py). Text is `String` (character lists under the hood); the
external sentence-transformer model and sklearn cosine similarity are
abstracted as a parameter `simsOf : String → List ℚ` giving, for a message,
the similarity row against the precomputed example embeddings; numpy's
`argmax` and Python exceptions are modelled explicitly. A Python exception is
a (class, detail) pair.
-/

/-- A Python exception: class name and detail message. -/
abbrev PyErr := String × String

/-- Python `str.lower()` restricted to ASCII case mapping. -/
def pyLower (s : String) : String := String.mk (s.data.map Char.toLower)

/-- Python substring test `needle in hay`. -/
def containsSub (needle hay : String) : Bool :=
  hay.data.tails.any (fun t => needle.data.isPrefixOf t)

/-- Python `str.strip()`: remove leading and trailing whitespace. -/
def pyStrip (s : String) : String :=
  String.mk (((s.data.dropWhile Char.isWhitespace).reverse.dropWhile
    Char.isWhitespace).reverse)

/-- Python truthiness of an optional string: `None` and `""` are falsy. -/
def pyTruthy : Option String → Bool
  | none => false
  | some s => !s.isEmpty

/-- Python f-string rendering of an optional string: `None` renders as "None". -/
def pyStrOpt : Option String → String
  | none => "None"
  | some s => s

/-- Python `list[i]`: raises IndexError out of range. -/
def pyIndex {α : Type} (l : List α) (i : Nat) : Except PyErr α :=
  match l[i]? with
  | some a => .ok a
  | none => .error ("IndexError", "list index out of range")

/-- Python `d["key"]` on a modelled optional field: raises KeyError when the
field is absent from the document. -/
def pyGetStr (v : Option String) (key : String) : Except PyErr String :=
  match v with
  | some s => .ok s
  | none => .error ("KeyError", key)

/-- A regex word character (`\w`), ASCII fragment: alphanumeric or underscore. -/
def isWordChar (c : Char) : Bool := c.isAlphanum || c == '_'

/-- The list starts with a non-word character (or is empty): the state in which
a trailing `\b` after a digit run holds. -/
def nonWordHead : List Char → Bool
  | [] => true
  | a :: _ => !isWordChar a

/-- `re.search(r"\b\d{6,}\b", ...)` over a character list: scan left to right;
at each position preceded by a word boundary (`prevW` records whether the
previous character was a word character; `false` at the start of the string)
where a digit starts, take the maximal digit run; accept it when it has length
at least 6 and is followed by a non-word character or the end of the string.
Positions inside a digit run can never satisfy the leading word boundary, so
the scan may step one character at a time. -/
def wcisSearch (prevW : Bool) : List Char → Option (List Char)
  | [] => none
  | c :: rest =>
    if c.isDigit && !prevW && decide (6 ≤ ((c :: rest).takeWhile Char.isDigit).length)
        && nonWordHead ((c :: rest).dropWhile Char.isDigit)
    then some ((c :: rest).takeWhile Char.isDigit)
    else wcisSearch (isWordChar c) rest

/-- `extract_wcis_id` (onb_corporate.py lines 63-74, onb_corporate2.py lines
55-57, and inline in onb.py lines 99-100): first match of `\b\d{6,}\b`. -/
def extract_wcis_id (s : String) : Option String :=
  (wcisSearch false s.data).map String.mk

/-- A decomposition `a ++ r ++ b` is a qualifying match of `\b\d{6,}\b` when
`r` is at least 6 digits, the character before it is a non-word character (or
the scan state `prevW` records a non-word predecessor when `a` is empty), and
the character after it is a non-word character or the end. -/
def QualRun (prevW : Bool) (a r b : List Char) : Prop :=
  6 ≤ r.length ∧ (∀ c ∈ r, c.isDigit = true) ∧
  (match a.getLast? with
   | none => prevW = false
   | some c => isWordChar c = false) ∧
  nonWordHead b = true

/-- `extract_company` (onb.py lines 48-60, onb_corporate.py lines 45-60):
first known entity name whose lowercase form is contained in the lowercased
message. The Python sources iterate over a `set` of names gathered from the
store, whose iteration order is unspecified; the order is passed explicitly
here as the list `companies`. -/
def extract_company (companies : List String) (text : String) : Option String :=
  companies.find? (fun c => containsSub (pyLower c) (pyLower text))

/-- `extract_legal_entity` (onb_corporate2.py lines 45-53): same scan over
the `legalEntityName` values of the records. -/
def extract_legal_entity (names : List String) (text : String) : Option String :=
  names.find? (fun c => containsSub (pyLower c) (pyLower text))

/-- A client record of onb.py / onb_corporate.py: a loosely-typed document;
absent fields are `none`. `steps` is the step-name to step-status mapping in
insertion order. -/
structure ClientDoc where
  company : Option String := none
  wcis_id : Option String := none
  status : Option String := none
  steps : Option (List (String × String)) := none
deriving DecidableEq, Repr

/-- `handle_onboarding_status` (onb.py lines 63-64). -/
def handle_onboarding_status (doc : ClientDoc) : String :=
  (doc.company.getD "Unknown") ++ " onboarding is " ++ (doc.status.getD "unknown")
    ++ " complete."

/-- The step names of `doc` whose status is not the literal "complete"
(onb.py line 67). -/
def pendingSteps (doc : ClientDoc) : List String :=
  ((doc.steps.getD []).filter (fun p => p.2 ≠ "complete")).map Prod.fst

/-- `handle_pending_steps` (onb.py lines 66-68). -/
def handle_pending_steps (doc : ClientDoc) : String :=
  "Pending steps for " ++ (doc.company.getD "Unknown") ++ ": " ++
    (if (pendingSteps doc).isEmpty then "None"
     else String.intercalate ", " (pendingSteps doc))

/-- `handle_step_status` (onb.py lines 71-75). -/
def handle_step_status (doc : ClientDoc) (user_text : String) : String :=
  match ["KYC", "AccountOpening", "LegalEntity"].find?
      (fun step => containsSub (pyLower step) (pyLower user_text)) with
  | some step =>
      step ++ " status for " ++ (doc.company.getD "Unknown") ++ ": " ++
        (((doc.steps.getD []).lookup step).getD "unknown")
  | none => "Step not recognized."

/-- `handle_who_is_customer` (onb.py lines 77-78): interpolates the extracted
identifier, which renders as "None" when absent. -/
def handle_who_is_customer (doc : ClientDoc) (wcis_id : Option String) : String :=
  "WCIS ID " ++ pyStrOpt wcis_id ++ " belongs to " ++ (doc.company.getD "Unknown")

/-- First index of the maximum of a similarity row together with that maximum,
modelling `np.argmax` (documented to return the first occurrence of the
maximum value); `none` on an empty row. -/
def argmaxPair : List ℚ → Option (Nat × ℚ)
  | [] => none
  | x :: xs =>
    match argmaxPair xs with
    | none => some (0, x)
    | some (j, m) => if x < m then some (j + 1, m) else some (0, x)

/-- `np.argmax` on the similarity row: ValueError on an empty row, otherwise
the first index attaining the maximum. -/
def npArgmax (l : List ℚ) : Except PyErr Nat :=
  match argmaxPair l with
  | none => .error ("ValueError", "attempt to get argmax of an empty sequence")
  | some (i, _) => .ok i

/-- The classification step shared verbatim by the variants (onb.py lines
92-96, onb_corporate.py lines 123-128, onb_corporate2.py lines 140-144):
embed the message, take cosine similarities against the example embeddings
(abstracted together as `simsOf`), select the argmax, and read off the intent
label and the confidence. -/
def classifyIntent (labels : List String) (simsOf : String → List ℚ)
    (t : String) : Except PyErr (String × ℚ) :=
  match npArgmax (simsOf t) with
  | .error e => .error e
  | .ok idx =>
    match pyIndex labels idx with
    | .error e => .error e
    | .ok intent =>
      match pyIndex (simsOf t) idx with
      | .error e => .error e
      | .ok conf => .ok (intent, conf)

namespace Onb

/-- An entry of intent_config as onb.py uses it: the intent name and the
MongoDB collection (`client[db][collection]`) holding its records. -/
structure IntentCfg where
  intent : String
  store : List ClientDoc

/-- The filter document built at onb.py lines 107-111: a conjunction of an
exact identifier condition and an anchored case-insensitive entity-name
regex condition, each added only when the extracted value is truthy. -/
structure MongoQuery where
  wcis_id : Option String := none
  company : Option String := none
deriving DecidableEq, Repr

/-- onb.py lines 107-111: `query = {}`, then add each condition if the
extracted value is truthy. -/
def buildQuery (wcis_id company : Option String) : MongoQuery :=
  { wcis_id := if pyTruthy wcis_id then wcis_id else none,
    company := if pyTruthy company then company else none }

/-- Whether a document matches the filter: exact equality on the identifier
field, and case-insensitive anchored equality on the entity-name field
(the regex is `^re.escape(company)$` with the `i` option); a document
lacking a filtered field does not match. -/
def mongoMatches (q : MongoQuery) (d : ClientDoc) : Bool :=
  (match q.wcis_id with
   | none => true
   | some w => d.wcis_id == some w) &&
  (match q.company with
   | none => true
   | some c =>
     match d.company with
     | none => false
     | some dc => pyLower dc == pyLower c)

/-- `collection.find_one(query)`: the first document in natural order
matching the filter, or `None`. -/
def find_one (store : List ClientDoc) (q : MongoQuery) : Option ClientDoc :=
  store.find? (mongoMatches q)

/-- The body of onb.py `handle_query` (lines 89-128), inside the `try`:
classify, extract, select the intent's collection, build the filter, look up,
and dispatch to the intent handler. -/
def handle_query_body (cfg : List IntentCfg) (companies : List String)
    (labels : List String) (simsOf : String → List ℚ) (msg : String) :
    Except PyErr String :=
  match classifyIntent labels simsOf msg with
  | .error e => .error e
  | .ok (intent, _conf) =>
  let wcis_id := extract_wcis_id msg
  let company := extract_company companies msg
  match cfg.find? (fun item => item.intent == intent) with
  | none => .ok "Intent not configured."
  | some intent_meta =>
    let q := buildQuery wcis_id company
    match find_one intent_meta.store q with
    | none => .ok "Sorry, no record found."
    | some doc =>
      if intent ∈ ["onboarding_status", "pending_steps", "step_status",
          "who_is_customer"] then
        if intent == "step_status" then .ok (handle_step_status doc msg)
        else if intent == "who_is_customer" then
          .ok (handle_who_is_customer doc wcis_id)
        else if intent == "onboarding_status" then
          .ok (handle_onboarding_status doc)
        else .ok (handle_pending_steps doc)
      else .ok "Sorry, I couldn't understand your request."

/-- onb.py `handle_query` with its `try/except` boundary (lines 89-132):
any exception is downgraded to the fixed apology string. -/
def handle_query (cfg : List IntentCfg) (companies : List String)
    (labels : List String) (simsOf : String → List ℚ) (msg : String) : String :=
  match handle_query_body cfg companies labels simsOf msg with
  | .ok r => r
  | .error _ =>
    "An error occurred while processing your request. Please try again later."

end Onb

namespace Corporate

/-- The generator-expression lookup of onb_corporate.py lines 113-115:
`next((doc for doc in client_data if (not wcis_id or doc["wcis_id"] ==
wcis_id) and (not company or doc["company"].lower() == company.lower())),
None)`. Each condition short-circuits on a falsy extracted value; field
access `doc[...]` raises KeyError on a record lacking the field. -/
def findMatch (wcis_id company : Option String) :
    List ClientDoc → Except PyErr (Option ClientDoc)
  | [] => .ok none
  | d :: rest =>
    match (if pyTruthy wcis_id then
             match pyGetStr d.wcis_id "wcis_id" with
             | .error e => .error e
             | .ok v => .ok (some v == wcis_id)
           else .ok true : Except PyErr Bool) with
    | .error e => .error e
    | .ok m1 =>
      if m1 then
        match (if pyTruthy company then
                 match pyGetStr d.company "company" with
                 | .error e => .error e
                 | .ok v => .ok (pyLower v == pyLower (company.getD ""))
               else .ok true : Except PyErr Bool) with
        | .error e => .error e
        | .ok m2 =>
          if m2 then .ok (some d) else findMatch wcis_id company rest
      else findMatch wcis_id company rest

/-- The body of onb_corporate.py `handle_query` (lines 102-139), inside the
`try`: extract, look up in the in-memory data, then classify and dispatch.
The lookup runs before classification in this variant. -/
def handle_query_body (client_data : List ClientDoc) (companies : List String)
    (labels : List String) (simsOf : String → List ℚ) (msg : String) :
    Except PyErr String :=
  let company := extract_company companies msg
  let wcis_id := extract_wcis_id msg
  match findMatch wcis_id company client_data with
  | .error e => .error e
  | .ok none => .ok "Sorry, no record found."
  | .ok (some doc) =>
    match classifyIntent labels simsOf msg with
    | .error e => .error e
    | .ok (intent, _conf) =>
    if intent ∈ ["onboarding_status", "pending_steps", "step_status",
        "who_is_customer"] then
      if intent == "step_status" then .ok (handle_step_status doc msg)
      else if intent == "who_is_customer" then
        .ok (handle_who_is_customer doc wcis_id)
      else if intent == "onboarding_status" then
        .ok (handle_onboarding_status doc)
      else .ok (handle_pending_steps doc)
    else .ok "Sorry, I couldn't understand your request."

/-- onb_corporate.py `handle_query` with its `try/except` boundary
(lines 102-143). -/
def handle_query (client_data : List ClientDoc) (companies : List String)
    (labels : List String) (simsOf : String → List ℚ) (msg : String) : String :=
  match handle_query_body client_data companies labels simsOf msg with
  | .ok r => r
  | .error _ =>
    "An error occurred while processing your request. Please try again later."

end Corporate

namespace Corporate2

/-- An onboarding record of onb_corporate2.py; absent fields are `none`. -/
structure Doc2 where
  wcisId : Option String := none
  legalEntityName : Option String := none
  currentMilestone : Option String := none
  milestones : Option (List String) := none
  accountMilestones : Option (List String) := none
  internalContacts : Option (List String) := none
  externalContacts : Option (List String) := none
deriving DecidableEq, Repr

/-- `handle_current_milestone` (onb_corporate2.py lines 60-63). -/
def handle_current_milestone (doc : Doc2) : String :=
  "Sure! Right now, " ++ (doc.legalEntityName.getD "Unknown") ++ " is at the '"
    ++ (doc.currentMilestone.getD "Not Available")
    ++ "' milestone. Need more info on what's next?"

/-- `handle_milestone_status` (onb_corporate2.py lines 65-71). -/
def handle_milestone_status (doc : Doc2) : String :=
  if !(doc.milestones.getD []).isEmpty then
    "Here’s how " ++ (doc.legalEntityName.getD "Unknown")
      ++ " has been progressing: "
      ++ String.intercalate ", " (doc.milestones.getD [])
      ++ ". Want to know more about any specific milestone?"
  else
    "I couldn't find any milestones listed for "
      ++ (doc.legalEntityName.getD "Unknown") ++ ". Want me to double-check?"

/-- `handle_accounts_milestone_status` (onb_corporate2.py lines 73-79). -/
def handle_accounts_milestone_status (doc : Doc2) : String :=
  if !(doc.accountMilestones.getD []).isEmpty then
    "As for account milestones, " ++ (doc.legalEntityName.getD "Unknown")
      ++ " has the following updates: "
      ++ String.intercalate ", " (doc.accountMilestones.getD [])
      ++ ". Shall I go deeper on any of these?"
  else
    "Hmm, doesn't look like there are any account milestones available for "
      ++ (doc.legalEntityName.getD "Unknown") ++ "."

/-- `handle_internal_contacts` (onb_corporate2.py lines 81-87). -/
def handle_internal_contacts (doc : Doc2) : String :=
  if !(doc.internalContacts.getD []).isEmpty then
    "Here’s who you can reach out to internally at "
      ++ (doc.legalEntityName.getD "Unknown") ++ ": "
      ++ String.intercalate ", " (doc.internalContacts.getD [])
      ++ ". Want me to share their roles too?"
  else
    "I couldn't spot any internal contacts for "
      ++ (doc.legalEntityName.getD "Unknown") ++ ". Need me to poke around again?"

/-- `handle_external_contacts` (onb_corporate2.py lines 89-95). -/
def handle_external_contacts (doc : Doc2) : String :=
  if !(doc.externalContacts.getD []).isEmpty then
    "External folks connected with " ++ (doc.legalEntityName.getD "Unknown")
      ++ " include: "
      ++ String.intercalate ", " (doc.externalContacts.getD [])
      ++ ". Let me know if you need contact details."
  else
    "Looks like there are no external contacts listed for "
      ++ (doc.legalEntityName.getD "Unknown") ++ ". Want me to recheck?"

/-- `handle_who_is_customer` (onb_corporate2.py lines 97-99): interpolates the
extracted identifier, which renders as "None" when absent. -/
def handle_who_is_customer (doc : Doc2) (wcis_id : Option String) : String :=
  "Got it! WCIS ID " ++ pyStrOpt wcis_id ++ " is linked to "
    ++ (doc.legalEntityName.getD "Unknown")
    ++ ". Anything else you'd like to know about them?"

/-- `small_talk_responses` (onb_corporate2.py lines 103-117), in the dict's
insertion order. -/
def small_talk_responses : List (String × String) :=
  [("hi", "Hey there! 👋 How can I help you today?"),
   ("hello", "Hello! I'm ObaasChat. What can I do for you today?"),
   ("hey", "Hey hey! 😊 Need help with onboarding info?"),
   ("how are you", "I'm doing great, thanks for asking! How about you?"),
   ("what can you do", "I can help you with onboarding status, milestones, contact info, and more. Just ask away!"),
   ("thanks", "You're very welcome! 😊 Anything else on your mind?"),
   ("thank you", "Glad to help! Let me know if there's more I can assist with."),
   ("who are you", "I’m ObaasChat, your onboarding assistant! Here to make life a little easier. 😉"),
   ("what's up", "Not much, just chilling in the cloud ☁️. What can I do for you today?"),
   ("good morning", "Good morning! Hope your day’s off to a smooth start ☀️"),
   ("good evening", "Good evening! 🌆 How can I assist you before you wrap up your day?"),
   ("bye", "See you soon! Don’t hesitate to come back if you need anything. 👋"),
   ("good night", "Sweet dreams! 😴 Catch you later!")]

/-- The record search of onb_corporate2.py lines 149-157: the first record
satisfying `match_id or match_name` — a DISJUNCTION of the two present
conditions. `match_id = (wcis_id and d.get("wcisId") == wcis_id)` and
`match_name = (legal_entity and d.get("legalEntityName", "").lower() ==
legal_entity.lower())`; a falsy extracted value makes its side falsy. -/
def findDoc (data : List Doc2) (wcis_id legal_entity : Option String) :
    Option Doc2 :=
  data.find? (fun d =>
    (pyTruthy wcis_id && (d.wcisId == wcis_id)) ||
    (pyTruthy legal_entity &&
      (pyLower (d.legalEntityName.getD "") == pyLower (legal_entity.getD ""))))

/-- The body of onb_corporate2.py `handle_query` (lines 131-170), inside the
`try`: lowercase and strip the message, answer small talk immediately,
otherwise classify, extract, search, and dispatch. -/
def handle_query_body (data : List Doc2) (names : List String)
    (labels : List String) (simsOf : String → List ℚ) (msg : String) :
    Except PyErr String :=
  let user_text := pyStrip (pyLower msg)
  match small_talk_responses.find? (fun p => containsSub p.1 user_text) with
  | some p => .ok p.2
  | none =>
    match classifyIntent labels simsOf user_text with
    | .error e => .error e
    | .ok (intent, _conf) =>
    let wcis_id := extract_wcis_id user_text
    let legal_entity := extract_legal_entity names user_text
    match findDoc data wcis_id legal_entity with
    | none =>
      .ok "Hmm, I couldn't find any matching record. Maybe double-check the name or ID?"
    | some doc =>
      if intent ∈ ["current_milestone", "milestone_status",
          "accounts_milestone_status", "internal_contacts",
          "external_contacts", "who_is_customer"] then
        if intent == "who_is_customer" then
          .ok (handle_who_is_customer doc wcis_id)
        else if intent == "current_milestone" then
          .ok (handle_current_milestone doc)
        else if intent == "milestone_status" then
          .ok (handle_milestone_status doc)
        else if intent == "accounts_milestone_status" then
          .ok (handle_accounts_milestone_status doc)
        else if intent == "internal_contacts" then
          .ok (handle_internal_contacts doc)
        else .ok (handle_external_contacts doc)
      else .ok "I'm not quite sure what you're asking. Want to rephrase it a bit?"

/-- onb_corporate2.py `handle_query` with its `try/except` boundary
(lines 131-174). -/
def handle_query (data : List Doc2) (names : List String)
    (labels : List String) (simsOf : String → List ℚ) (msg : String) : String :=
  match handle_query_body data names labels simsOf msg with
  | .ok r => r
  | .error _ => "Oops, something went wrong on my side. Mind trying again in a bit?"

end Corporate2

/-- argmaxPair returns the value at the returned index, that value is an upper
bound of the row, and every earlier entry is strictly below it. -/
theorem argmaxPair_spec (l : List ℚ) (i : Nat) (m : ℚ)
    (h : argmaxPair l = some (i, m)) :
    l[i]? = some m ∧ (∀ (j : Nat) (x : ℚ), l[j]? = some x → x ≤ m) ∧
      (∀ (j : Nat) (x : ℚ), j < i → l[j]? = some x → x < m) := by
  induction l generalizing i m with
  | nil => simp [argmaxPair] at h
  | cons y ys ih =>
    rw [argmaxPair] at h
    cases h' : argmaxPair ys with
    | none =>
      rw [h'] at h
      have hys : ys = [] := by
        cases ys with
        | nil => rfl
        | cons z zs =>
          exfalso
          rw [argmaxPair] at h'
          cases h'' : argmaxPair zs with
          | none => rw [h''] at h'; simp at h'
          | some p => rw [h''] at h'; obtain ⟨j, m'⟩ := p; by_cases hz : z < m' <;> simp [hz] at h'
      subst hys
      simp only [Option.some.injEq, Prod.mk.injEq] at h
      obtain ⟨rfl, rfl⟩ := h
      refine ⟨by simp, ?_, ?_⟩
      · intro j x hj
        cases j with
        | zero =>
          simp only [List.getElem?_cons_zero, Option.some.injEq] at hj
          exact le_of_eq hj.symm
        | succ k => simp at hj
      · intro j x hj
        exact absurd hj (Nat.not_lt_zero j)
    | some p =>
      obtain ⟨j, m'⟩ := p
      rw [h'] at h
      change (if y < m' then some (j + 1, m') else some (0, y)) = some (i, m) at h
      have spec := ih j m' h'
      by_cases hy : y < m'
      · rw [if_pos hy] at h
        simp only [Option.some.injEq, Prod.mk.injEq] at h
        obtain ⟨rfl, rfl⟩ := h
        refine ⟨by simpa using spec.1, ?_, ?_⟩
        · intro k x hk
          cases k with
          | zero =>
            simp only [List.getElem?_cons_zero, Option.some.injEq] at hk
            exact le_of_lt (hk ▸ hy)
          | succ k' =>
            simp only [List.getElem?_cons_succ] at hk
            exact spec.2.1 k' x hk
        · intro k x hki hk
          cases k with
          | zero =>
            simp only [List.getElem?_cons_zero, Option.some.injEq] at hk
            exact hk ▸ hy
          | succ k' =>
            simp only [List.getElem?_cons_succ] at hk
            exact spec.2.2 k' x (by omega) hk
      · rw [if_neg hy] at h
        simp only [Option.some.injEq, Prod.mk.injEq] at h
        obtain ⟨rfl, rfl⟩ := h
        push_neg at hy
        refine ⟨by simp, ?_, ?_⟩
        · intro k x hk
          cases k with
          | zero =>
            simp only [List.getElem?_cons_zero, Option.some.injEq] at hk
            exact hk ▸ le_refl _
          | succ k' =>
            simp only [List.getElem?_cons_succ] at hk
            exact le_trans (spec.2.1 k' x hk) hy
        · intro k x hki hk
          omega

theorem takeWhile_append_of_all {p : Char → Bool} (r b : List Char)
    (h : ∀ c ∈ r, p c = true) :
    (r ++ b).takeWhile p = r ++ b.takeWhile p ∧
      (r ++ b).dropWhile p = b.dropWhile p := by
  induction r with
  | nil => simp
  | cons x xs ih =>
    have hx : p x = true := h x (by simp)
    have hxs : ∀ c ∈ xs, p c = true := fun c hc => h c (by simp [hc])
    obtain ⟨h1, h2⟩ := ih hxs
    refine ⟨?_, ?_⟩
    · simp [List.takeWhile_cons, hx, h1]
    · simp [List.dropWhile_cons, hx, h2]

theorem digit_isWordChar {c : Char} (h : c.isDigit = true) :
    isWordChar c = true := by
  simp [isWordChar, Char.isAlphanum, h]

/-- A qualifying decomposition starting at the head of the list forces the
acceptance condition of `wcisSearch` and identifies `r` and `b` with the
maximal digit run and its remainder. -/
theorem qual_head_cond (c : Char) (rest r b : List Char) (prevW : Bool)
    (hdec : c :: rest = r ++ b) (hq : QualRun prevW [] r b) :
    (c.isDigit && !prevW &&
        decide (6 ≤ ((c :: rest).takeWhile Char.isDigit).length) &&
        nonWordHead ((c :: rest).dropWhile Char.isDigit)) = true
    ∧ r = (c :: rest).takeWhile Char.isDigit
    ∧ b = (c :: rest).dropWhile Char.isDigit := by
  obtain ⟨hlen, hdig, hpw, hb⟩ := hq
  have hpw' : prevW = false := by simpa using hpw
  have hrne : r ≠ [] := by
    intro hr
    rw [hr] at hlen
    simp at hlen
  have hsplit := takeWhile_append_of_all (p := Char.isDigit) r b hdig
  have hbt : b.takeWhile Char.isDigit = [] := by
    cases b with
    | nil => rfl
    | cons x bs =>
      have hx : isWordChar x = false := by simpa [nonWordHead] using hb
      have hxd : x.isDigit = false := by
        cases hxd : x.isDigit
        · rfl
        · rw [digit_isWordChar hxd] at hx; cases hx
      simp [List.takeWhile_cons, hxd]
  have hbd : b.dropWhile Char.isDigit = b := by
    cases b with
    | nil => rfl
    | cons x bs =>
      have hx : isWordChar x = false := by simpa [nonWordHead] using hb
      have hxd : x.isDigit = false := by
        cases hxd : x.isDigit
        · rfl
        · rw [digit_isWordChar hxd] at hx; cases hx
      simp [List.dropWhile_cons, hxd]
  have htake : (c :: rest).takeWhile Char.isDigit = r := by
    rw [hdec, hsplit.1, hbt, List.append_nil]
  have hdrop : (c :: rest).dropWhile Char.isDigit = b := by
    rw [hdec, hsplit.2, hbd]
  have hcd : c.isDigit = true := by
    cases r with
    | nil => exact absurd rfl hrne
    | cons r0 rs =>
      have hc0 : c = r0 := by
        have := hdec
        simp only [List.cons_append] at this
        exact (List.cons.injEq _ _ _ _ ▸ this).1
      rw [hc0]
      exact hdig r0 (by simp)
  have hnw : nonWordHead b = true := hb
  refine ⟨?_, htake.symm, hdrop.symm⟩
  rw [htake, hdrop]
  simp [hcd, hpw', hlen, hnw]

/-- Soundness of `wcisSearch`: a returned run is a qualifying match at the
leftmost qualifying position. -/
theorem wcisSearch_sound (s : List Char) : ∀ (prevW : Bool) (r : List Char),
    wcisSearch prevW s = some r →
    ∃ a b, s = a ++ r ++ b ∧ QualRun prevW a r b ∧
      ∀ a' r' b', s = a' ++ r' ++ b' → QualRun prevW a' r' b' →
        a.length ≤ a'.length := by
  induction s with
  | nil => intro prevW r h; simp [wcisSearch] at h
  | cons c rest ih =>
    intro prevW r h
    rw [wcisSearch] at h
    by_cases hcond : (c.isDigit && !prevW &&
        decide (6 ≤ ((c :: rest).takeWhile Char.isDigit).length) &&
        nonWordHead ((c :: rest).dropWhile Char.isDigit)) = true
    · rw [if_pos hcond] at h
      have hr : r = (c :: rest).takeWhile Char.isDigit := by
        injection h with h'
        exact h'.symm
      simp only [Bool.and_eq_true, Bool.not_eq_true', decide_eq_true_eq] at hcond
      obtain ⟨⟨⟨hcd, hpw⟩, hlen⟩, hnw⟩ := hcond
      refine ⟨[], (c :: rest).dropWhile Char.isDigit, ?_, ?_, ?_⟩
      · rw [hr]
        simp [List.takeWhile_append_dropWhile]
      · refine ⟨by rw [hr]; exact hlen, ?_, ?_, hnw⟩
        · intro x hx
          rw [hr] at hx
          exact List.mem_takeWhile_imp hx
        · simpa using hpw
      · intro a' r' b' hdec hq
        simp
    · rw [if_neg hcond] at h
      obtain ⟨a, b, hdec, hq, hmin⟩ := ih (isWordChar c) r h
      refine ⟨c :: a, b, by simp [hdec], ?_, ?_⟩
      · obtain ⟨hlen, hdig, hlast, hb⟩ := hq
        refine ⟨hlen, hdig, ?_, hb⟩
        cases a with
        | nil =>
          simp only [List.getLast?_singleton]
          simpa using hlast
        | cons y ys =>
          rw [List.getLast?_cons_cons]
          exact hlast
      · intro a' r' b' hdec' hq'
        cases a' with
        | nil =>
          exfalso
          simp only [List.nil_append] at hdec'
          exact absurd (qual_head_cond c rest r' b' prevW hdec' hq').1 hcond
        | cons c0 a'' =>
          simp only [List.cons_append, List.cons.injEq] at hdec'
          obtain ⟨hc0, hrest⟩ := hdec'
          have hq'' : QualRun (isWordChar c) a'' r' b' := by
            obtain ⟨hlen', hdig', hlast', hb'⟩ := hq'
            refine ⟨hlen', hdig', ?_, hb'⟩
            cases a'' with
            | nil =>
              simp only [List.getLast?_nil]
              have : isWordChar c0 = false := by
                simpa [List.getLast?_singleton] using hlast'
              rw [hc0]
              exact this
            | cons y ys =>
              rw [List.getLast?_cons_cons] at hlast'
              exact hlast'
          have := hmin a'' r' b' hrest hq''
          simpa using this

/-- Completeness of `wcisSearch`: when a qualifying match exists, the search
does not return `none`. -/
theorem wcisSearch_complete (s : List Char) : ∀ (prevW : Bool)
    (a r b : List Char), s = a ++ r ++ b → QualRun prevW a r b →
    wcisSearch prevW s ≠ none := by
  induction s with
  | nil =>
    intro prevW a r b hdec hq
    exfalso
    obtain ⟨hlen, _, _, _⟩ := hq
    have : r = [] := by
      rcases List.append_eq_nil.mp ((List.append_assoc a r b) ▸ hdec.symm) with ⟨h1, h2⟩
      rcases List.append_eq_nil.mp h2 with ⟨h3, _⟩
      exact h3
    rw [this] at hlen
    simp at hlen
  | cons c rest ih =>
    intro prevW a r b hdec hq
    rw [wcisSearch]
    by_cases hcond : (c.isDigit && !prevW &&
        decide (6 ≤ ((c :: rest).takeWhile Char.isDigit).length) &&
        nonWordHead ((c :: rest).dropWhile Char.isDigit)) = true
    · rw [if_pos hcond]
      simp
    · rw [if_neg hcond]
      cases a with
      | nil =>
        exfalso
        simp only [List.nil_append] at hdec
        exact absurd (qual_head_cond c rest r b prevW hdec hq).1 hcond
      | cons c0 a'' =>
        simp only [List.cons_append, List.cons.injEq] at hdec
        obtain ⟨hc0, hrest⟩ := hdec
        have hq'' : QualRun (isWordChar c) a'' r b := by
          obtain ⟨hlen', hdig', hlast', hb'⟩ := hq
          refine ⟨hlen', hdig', ?_, hb'⟩
          cases a'' with
          | nil =>
            simp only [List.getLast?_nil]
            have : isWordChar c0 = false := by
              simpa [List.getLast?_singleton] using hlast'
            rw [hc0]
            exact this
          | cons y ys =>
            rw [List.getLast?_cons_cons] at hlast'
            exact hlast'
        exact ih (isWordChar c) a'' r b hrest hq''

/-- C1 (amended): the onb.py Mongo filter and the onb_corporate.py generator
lookup apply the conjunction of the present conditions — exact identifier
equality and case-insensitive anchored entity-name equality — but the
onb_corporate2.py search applies the DISJUNCTION: a returned record is only
guaranteed to satisfy at least one present condition. -/
theorem c1_lookup_conjunction_vs_disjunction :
    (∀ (store : List ClientDoc) (w c : String) (d : ClientDoc),
      w ≠ "" → c ≠ "" →
      Onb.find_one store (Onb.buildQuery (some w) (some c)) = some d →
      d.wcis_id = some w ∧ ∃ dc, d.company = some dc ∧ pyLower dc = pyLower c)
    ∧ (∀ (data : List ClientDoc) (w c : String) (d : ClientDoc),
      w ≠ "" → c ≠ "" →
      Corporate.findMatch (some w) (some c) data = .ok (some d) →
      d.wcis_id = some w ∧ ∃ dc, d.company = some dc ∧ pyLower dc = pyLower c)
    ∧ (∀ (data : List Corporate2.Doc2) (w c : String) (d : Corporate2.Doc2),
      Corporate2.findDoc data (some w) (some c) = some d →
      d.wcisId = some w ∨ pyLower (d.legalEntityName.getD "") = pyLower c) := by
  refine ⟨?_, ?_, ?_⟩
  · intro store w c d hw hc hfind
    have hp := List.find?_some hfind
    have htw : pyTruthy (some w) = true := by
      simp [pyTruthy, Bool.eq_false_iff, String.isEmpty_iff, hw]
    have htc : pyTruthy (some c) = true := by
      simp [pyTruthy, Bool.eq_false_iff, String.isEmpty_iff, hc]
    simp only [Onb.mongoMatches, Onb.buildQuery, htw, htc, if_true,
      Bool.and_eq_true] at hp
    obtain ⟨hp1, hp2⟩ := hp
    refine ⟨by simpa [beq_iff_eq] using hp1, ?_⟩
    cases hdc : d.company with
    | none => rw [hdc] at hp2; simp at hp2
    | some dc =>
      rw [hdc] at hp2
      exact ⟨dc, rfl, by simpa [beq_iff_eq] using hp2⟩
  · intro data w c d hw hc h
    have htw : pyTruthy (some w) = true := by
      simp [pyTruthy, Bool.eq_false_iff, String.isEmpty_iff, hw]
    have htc : pyTruthy (some c) = true := by
      simp [pyTruthy, Bool.eq_false_iff, String.isEmpty_iff, hc]
    induction data with
    | nil => simp [Corporate.findMatch] at h
    | cons d0 rest ih =>
      rw [Corporate.findMatch] at h
      rw [htw, htc] at h
      simp only [if_true] at h
      cases hw1 : d0.wcis_id with
      | none => rw [hw1] at h; simp [pyGetStr] at h
      | some v =>
        rw [hw1] at h
        simp only [pyGetStr] at h
        by_cases hv : some v == some w
        · rw [if_pos hv] at h
          cases hc1 : d0.company with
          | none => rw [hc1] at h; simp [pyGetStr] at h
          | some dc =>
            rw [hc1] at h
            simp only [pyGetStr] at h
            by_cases hdc : pyLower dc == pyLower ((some c).getD "")
            · rw [if_pos hdc] at h
              simp only [Except.ok.injEq, Option.some.injEq] at h
              subst h
              refine ⟨by rw [hw1]; simpa [beq_iff_eq] using hv, dc, hc1, ?_⟩
              simpa [beq_iff_eq] using hdc
            · rw [if_neg hdc] at h
              exact ih h
        · rw [if_neg hv] at h
          exact ih h
  · intro data w c d hfind
    have hp := List.find?_some hfind
    simp only [Corporate2.findDoc, Bool.or_eq_true, Bool.and_eq_true,
      beq_iff_eq] at hp
    rcases hp with ⟨_, h1⟩ | ⟨_, h2⟩
    · exact Or.inl h1
    · exact Or.inr h2


/-- C1 counterexample: for the message "who is globex 123456", both an
identifier and an entity name are extracted; the onb_corporate2.py search
returns the Initech record, which satisfies only the identifier condition
(its entity name does not match "Globex"), so the lookup is not a
conjunction there. -/
theorem c1_counterexample_disjunction :
    extract_wcis_id (pyStrip (pyLower "who is globex 123456")) = some "123456" ∧
    extract_legal_entity ["Initech", "Globex"]
      (pyStrip (pyLower "who is globex 123456")) = some "Globex" ∧
    Corporate2.findDoc
      [{ wcisId := some "123456", legalEntityName := some "Initech" },
       { wcisId := some "999999", legalEntityName := some "Globex" }]
      (some "123456") (some "Globex") =
      some { wcisId := some "123456", legalEntityName := some "Initech" } ∧
    pyLower ((some "Initech").getD "") ≠ pyLower "Globex" := by decide

/-- C1 witness: the amended theorem applied at concrete stores, an
identifier, an entity name, and matched records. -/
theorem c1_witness :
    (({ company := some "Apple", wcis_id := some "123456" } : ClientDoc).wcis_id =
        some "123456" ∧
      ∃ dc, ({ company := some "Apple", wcis_id := some "123456" } :
          ClientDoc).company = some dc ∧ pyLower dc = pyLower "apple") ∧
    (({ company := some "Apple", wcis_id := some "123456" } : ClientDoc).wcis_id =
        some "123456" ∧
      ∃ dc, ({ company := some "Apple", wcis_id := some "123456" } :
          ClientDoc).company = some dc ∧ pyLower dc = pyLower "apple") ∧
    (({ wcisId := some "123456", legalEntityName := some "Initech" } :
        Corporate2.Doc2).wcisId = some "123456" ∨
      pyLower (({ wcisId := some "123456", legalEntityName := some "Initech" } :
        Corporate2.Doc2).legalEntityName.getD "") = pyLower "Globex") :=
  ⟨c1_lookup_conjunction_vs_disjunction.1
      [{ company := some "Apple", wcis_id := some "123456" }] "123456" "apple"
      { company := some "Apple", wcis_id := some "123456" }
      (by decide) (by decide) rfl,
   c1_lookup_conjunction_vs_disjunction.2.1
      [{ company := some "Apple", wcis_id := some "123456" }] "123456" "apple"
      { company := some "Apple", wcis_id := some "123456" }
      (by decide) (by decide) rfl,
   c1_lookup_conjunction_vs_disjunction.2.2
      [{ wcisId := some "123456", legalEntityName := some "Initech" }]
      "123456" "Globex"
      { wcisId := some "123456", legalEntityName := some "Initech" } rfl⟩

/-- C2 (amended): with neither field extracted, onb.py's empty Mongo filter
and onb_corporate.py's vacuous conjunction both return the first record of
the store, and the onb.py endpoint then renders a response from that first
record; but the onb_corporate2.py search matches nothing (its disjunction of
two falsy conditions is false for every record). -/
theorem c2_empty_filter_first_record :
    (∀ store : List ClientDoc,
      Onb.find_one store (Onb.buildQuery none none) = store.head?)
    ∧ (∀ data : List ClientDoc,
      Corporate.findMatch none none data = .ok data.head?)
    ∧ (∀ data : List Corporate2.Doc2, Corporate2.findDoc data none none = none)
    ∧ (∀ (cfg : List Onb.IntentCfg) (companies labels : List String)
        (simsOf : String → List ℚ) (msg : String) (conf : ℚ)
        (meta : Onb.IntentCfg) (d : ClientDoc) (rest : List ClientDoc),
      classifyIntent labels simsOf msg = .ok ("onboarding_status", conf) →
      extract_wcis_id msg = none →
      extract_company companies msg = none →
      cfg.find? (fun item => item.intent == "onboarding_status") = some meta →
      meta.store = d :: rest →
      Onb.handle_query_body cfg companies labels simsOf msg =
        .ok (handle_onboarding_status d)) := by
  have h1 : ∀ store : List ClientDoc,
      Onb.find_one store (Onb.buildQuery none none) = store.head? := by
    intro store
    cases store with
    | nil => rfl
    | cons d rest => rfl
  refine ⟨h1, ?_, ?_, ?_⟩
  · intro data
    cases data with
    | nil => rfl
    | cons d rest => rfl
  · intro data
    simp [Corporate2.findDoc, List.find?_eq_none, pyTruthy]
  · intro cfg companies labels simsOf msg conf meta d rest hcl hex hcomp hmeta hstore
    simp only [Onb.handle_query_body, hcl, hex, hcomp, hmeta, hstore]
    rw [h1]
    rfl

/-- C2 witness: the amended theorem applied at concrete stores and a
concrete request that extracts neither field. -/
theorem c2_witness :
    Onb.find_one [{ company := some "Apple" }] (Onb.buildQuery none none) =
      some { company := some "Apple" } ∧
    Corporate.findMatch none none [{ company := some "Apple" }] =
      .ok (some { company := some "Apple" }) ∧
    Corporate2.findDoc [{ legalEntityName := some "Initech" }] none none = none ∧
    Onb.handle_query_body
        [⟨"onboarding_status", [{ company := some "Apple", status := some "70%" }]⟩]
        [] ["onboarding_status"] (fun _ => [1]) "zzz" =
      .ok (handle_onboarding_status { company := some "Apple", status := some "70%" }) :=
  ⟨c2_empty_filter_first_record.1 [{ company := some "Apple" }],
   c2_empty_filter_first_record.2.1 [{ company := some "Apple" }],
   c2_empty_filter_first_record.2.2.1 [{ legalEntityName := some "Initech" }],
   c2_empty_filter_first_record.2.2.2
     [⟨"onboarding_status", [{ company := some "Apple", status := some "70%" }]⟩]
     [] ["onboarding_status"] (fun _ => [1]) "zzz" 1
     ⟨"onboarding_status", [{ company := some "Apple", status := some "70%" }]⟩
     { company := some "Apple", status := some "70%" } [] rfl rfl rfl rfl rfl⟩

/-- C2 counterexample: "status please" extracts neither an identifier nor an
entity name, the onb_corporate2.py store is non-empty, yet the endpoint
returns its not-found reply instead of rendering a response from the first
record. -/
theorem c2_counterexample_not_found :
    extract_wcis_id (pyStrip (pyLower "status please")) = none ∧
    extract_legal_entity ["Initech"] (pyStrip (pyLower "status please")) = none ∧
    ([({ wcisId := some "123456", legalEntityName := some "Initech" } :
        Corporate2.Doc2)] ≠ []) ∧
    Corporate2.handle_query
        [{ wcisId := some "123456", legalEntityName := some "Initech" }]
        ["Initech"] ["current_milestone"] (fun _ => [1]) "status please" =
      "Hmm, I couldn't find any matching record. Maybe double-check the name or ID?" := by
  decide

/-- C3 (amended): if some known entity name is contained (case-insensitively)
in the text, extraction returns SOME known entity name that is contained —
never absence; when exactly one known name is contained it returns that name;
and onb_corporate2.py's extractor is the same function. When several known
names are contained (one name a substring of another), the name returned is
decided by iteration order and can differ from the embedded one. -/
theorem c3_entity_extraction :
    (∀ (companies : List String) (text : String),
      (∃ c ∈ companies, containsSub (pyLower c) (pyLower text) = true) →
      ∃ r, extract_company companies text = some r ∧ r ∈ companies ∧
        containsSub (pyLower r) (pyLower text) = true)
    ∧ (∀ (companies : List String) (text c : String),
      c ∈ companies → containsSub (pyLower c) (pyLower text) = true →
      (∀ c' ∈ companies, containsSub (pyLower c') (pyLower text) = true → c' = c) →
      extract_company companies text = some c)
    ∧ (∀ (names : List String) (text : String),
      extract_legal_entity names text = extract_company names text) := by
  refine ⟨?_, ?_, ?_⟩
  · intro companies text h
    obtain ⟨c, hc, hsub⟩ := h
    cases hf : extract_company companies text with
    | none =>
      exfalso
      rw [extract_company, List.find?_eq_none] at hf
      exact absurd hsub (by simpa using hf c hc)
    | some r =>
      have hf2 := hf
      rw [extract_company] at hf2
      exact ⟨r, rfl, List.mem_of_find?_eq_some hf2,
        by simpa using List.find?_some hf2⟩
  · intro companies text c hc hsub huniq
    cases hf : extract_company companies text with
    | none =>
      exfalso
      rw [extract_company, List.find?_eq_none] at hf
      exact absurd hsub (by simpa using hf c hc)
    | some r =>
      have hf2 := hf
      rw [extract_company] at hf2
      have hr : r = c := huniq r (List.mem_of_find?_eq_some hf2)
        (by simpa using List.find?_some hf2)
      rw [hr]
  · intro names text
    rfl

/-- C3 counterexample: with known names iterated as ["App", "Apple"], the
text "status of Apple" contains the known name "Apple" verbatim, yet
extraction returns "App", a different name. -/
theorem c3_counterexample_shadowed_name :
    containsSub (pyLower "Apple") (pyLower "status of Apple") = true ∧
    ("Apple" : String) ∈ ["App", "Apple"] ∧
    extract_company ["App", "Apple"] "status of Apple" = some "App" ∧
    (("App" : String) ≠ "Apple") := by decide

/-- C3 witness: the amended theorem applied at a singleton name list and at
a two-name list whose unique contained name is returned. -/
theorem c3_witness :
    (∃ r, extract_company ["Apple"] "status of Apple" = some r ∧
      r ∈ ["Apple"] ∧ containsSub (pyLower r) (pyLower "status of Apple") = true) ∧
    extract_company ["Globex", "Apple"] "status of Apple" = some "Apple" :=
  ⟨c3_entity_extraction.1 ["Apple"] "status of Apple"
      ⟨"Apple", by decide, by decide⟩,
   c3_entity_extraction.2.1 ["Globex", "Apple"] "status of Apple" "Apple"
      (by decide) (by decide) (by decide)⟩

/-- C4: in onb_corporate2.py, when the lowercased, trimmed message contains
one of the literal greeting phrases, the endpoint returns the corresponding
canned reply, and the result does not depend on the record store, the known
names, the intent labels or the similarity function — classification, field
extraction and lookup are bypassed. -/
theorem c4_small_talk_bypass (msg : String) (pr : String × String)
    (h : Corporate2.small_talk_responses.find?
      (fun p => containsSub p.1 (pyStrip (pyLower msg))) = some pr) :
    ∀ (data : List Corporate2.Doc2) (names labels : List String)
      (simsOf : String → List ℚ),
      Corporate2.handle_query data names labels simsOf msg = pr.2 := by
  intro data names labels simsOf
  simp [Corporate2.handle_query, Corporate2.handle_query_body, h]

theorem c4_witness :
    Corporate2.small_talk_responses.find?
      (fun p => containsSub p.1 (pyStrip (pyLower "Hello there"))) =
      some ("hello", "Hello! I'm ObaasChat. What can I do for you today?") ∧
    Corporate2.handle_query [] [] [] (fun _ => []) "Hello there" =
      "Hello! I'm ObaasChat. What can I do for you today?" :=
  ⟨by decide, c4_small_talk_bypass "Hello there"
    ("hello", "Hello! I'm ObaasChat. What can I do for you today?") (by decide)
    [] [] [] (fun _ => [])⟩

/-- C5: in each variant, when the derived filter matches no record the
endpoint returns that service's literal not-found message, for every
classified intent, and the body returns normally (no exception escapes). -/
theorem c5_not_found_message :
    (∀ (cfg : List Onb.IntentCfg) (companies labels : List String)
       (simsOf : String → List ℚ) (msg intent : String) (conf : ℚ)
       (meta : Onb.IntentCfg),
      classifyIntent labels simsOf msg = .ok (intent, conf) →
      cfg.find? (fun item => item.intent == intent) = some meta →
      Onb.find_one meta.store
        (Onb.buildQuery (extract_wcis_id msg) (extract_company companies msg)) =
          none →
      Onb.handle_query_body cfg companies labels simsOf msg =
        .ok "Sorry, no record found.")
    ∧ (∀ (data : List ClientDoc) (companies labels : List String)
       (simsOf : String → List ℚ) (msg : String),
      Corporate.findMatch (extract_wcis_id msg) (extract_company companies msg)
        data = .ok none →
      Corporate.handle_query_body data companies labels simsOf msg =
        .ok "Sorry, no record found.")
    ∧ (∀ (data : List Corporate2.Doc2) (names labels : List String)
       (simsOf : String → List ℚ) (msg intent : String) (conf : ℚ),
      Corporate2.small_talk_responses.find?
        (fun p => containsSub p.1 (pyStrip (pyLower msg))) = none →
      classifyIntent labels simsOf (pyStrip (pyLower msg)) = .ok (intent, conf) →
      Corporate2.findDoc data (extract_wcis_id (pyStrip (pyLower msg)))
        (extract_legal_entity names (pyStrip (pyLower msg))) = none →
      Corporate2.handle_query_body data names labels simsOf msg =
        .ok "Hmm, I couldn't find any matching record. Maybe double-check the name or ID?") := by
  refine ⟨?_, ?_, ?_⟩
  · intro cfg companies labels simsOf msg intent conf meta hcl hmeta hfind
    simp only [Onb.handle_query_body, hcl, hmeta, hfind]
  · intro data companies labels simsOf msg hfind
    simp only [Corporate.handle_query_body, hfind]
  · intro data names labels simsOf msg intent conf hsmall hcl hfind
    simp only [Corporate2.handle_query_body, hsmall, hcl, hfind]

theorem c5_witness :
    classifyIntent ["onboarding_status"] (fun _ => [1]) "status of Initech" =
        .ok ("onboarding_status", 1) ∧
    Onb.handle_query_body [⟨"onboarding_status", []⟩] [] ["onboarding_status"]
        (fun _ => [1]) "status of Initech" = .ok "Sorry, no record found." ∧
    Corporate.handle_query_body [] [] ["onboarding_status"] (fun _ => [1])
        "status of Initech" = .ok "Sorry, no record found." ∧
    Corporate2.handle_query_body [] [] ["current_milestone"] (fun _ => [1])
        "status of Initech" =
      .ok "Hmm, I couldn't find any matching record. Maybe double-check the name or ID?" :=
  ⟨rfl,
   c5_not_found_message.1 [⟨"onboarding_status", []⟩] [] ["onboarding_status"]
     (fun _ => [1]) "status of Initech" "onboarding_status" 1
     ⟨"onboarding_status", []⟩ rfl rfl rfl,
   c5_not_found_message.2.1 [] [] ["onboarding_status"] (fun _ => [1])
     "status of Initech" rfl,
   c5_not_found_message.2.2 [] [] ["current_milestone"] (fun _ => [1])
     "status of Initech" "current_milestone" 1 rfl rfl rfl⟩

/-- C6: intent classification is a deterministic function of the input text
(for a fixed example corpus and embedding), and the returned label and
confidence come from the first index attaining the maximum similarity:
every entry is at most the confidence and every earlier entry is strictly
below it. -/
theorem c6_classifier_deterministic :
    (∀ (labels : List String) (simsOf : String → List ℚ) (t₁ t₂ : String),
      t₁ = t₂ →
      classifyIntent labels simsOf t₁ = classifyIntent labels simsOf t₂)
    ∧ (∀ (labels : List String) (simsOf : String → List ℚ) (t : String)
        (intent : String) (conf : ℚ),
      classifyIntent labels simsOf t = .ok (intent, conf) →
      ∃ i, npArgmax (simsOf t) = .ok i ∧ labels[i]? = some intent ∧
        (simsOf t)[i]? = some conf ∧
        (∀ (j : Nat) (x : ℚ), (simsOf t)[j]? = some x → x ≤ conf) ∧
        (∀ (j : Nat) (x : ℚ), j < i → (simsOf t)[j]? = some x → x < conf)) := by
  constructor
  · intro labels simsOf t₁ t₂ ht
    rw [ht]
  · intro labels simsOf t intent conf h
    unfold classifyIntent at h
    cases h1 : argmaxPair (simsOf t) with
    | none => simp [npArgmax, h1] at h
    | some p =>
      obtain ⟨i, m⟩ := p
      have hspec := argmaxPair_spec (simsOf t) i m h1
      simp only [npArgmax, h1] at h
      cases h2 : labels[i]? with
      | none => simp [pyIndex, h2] at h
      | some lab =>
        simp only [pyIndex, h2, hspec.1] at h
        obtain ⟨rfl, rfl⟩ := h
        exact ⟨i, by simp [npArgmax, h1], h2, hspec.1, hspec.2.1, hspec.2.2⟩

theorem c6_witness :
    classifyIntent ["a", "b"] (fun _ => [1, 1]) "x" =
        classifyIntent ["a", "b"] (fun _ => [1, 1]) "x" ∧
    classifyIntent ["a", "b"] (fun _ => [1, 1]) "x" = .ok ("a", 1) ∧
    (∃ i, npArgmax ((fun (_ : String) => [(1 : ℚ), 1]) "x") = .ok i ∧
      ["a", "b"][i]? = some "a" ∧
      (((fun (_ : String) => [(1 : ℚ), 1]) "x"))[i]? = some 1 ∧
      (∀ (j : Nat) (x : ℚ), (((fun (_ : String) => [(1 : ℚ), 1]) "x"))[j]? = some x → x ≤ 1) ∧
      (∀ (j : Nat) (x : ℚ), j < i → (((fun (_ : String) => [(1 : ℚ), 1]) "x"))[j]? = some x → x < 1)) :=
  ⟨c6_classifier_deterministic.1 ["a", "b"] (fun _ => [1, 1]) "x" "x" rfl,
   rfl,
   c6_classifier_deterministic.2 ["a", "b"] (fun _ => [1, 1]) "x" "a" 1 rfl⟩

/-- C7: the pending-steps renderer lists exactly the step names whose status
is not the literal "complete", and a record whose statuses are all
"complete" renders with the literal "None". -/
theorem c7_pending_steps :
    (∀ (doc : ClientDoc) (name : String),
      name ∈ pendingSteps doc ↔
        ∃ st, (name, st) ∈ doc.steps.getD [] ∧ st ≠ "complete")
    ∧ (∀ doc : ClientDoc, (∀ p ∈ doc.steps.getD [], p.2 = "complete") →
      handle_pending_steps doc =
        "Pending steps for " ++ (doc.company.getD "Unknown") ++ ": None") := by
  constructor
  · intro doc name
    simp only [pendingSteps, List.mem_map, List.mem_filter]
    constructor
    · rintro ⟨⟨n, st⟩, ⟨hmem, hst⟩, rfl⟩
      exact ⟨st, hmem, by simpa using hst⟩
    · rintro ⟨st, hmem, hst⟩
      exact ⟨(name, st), ⟨hmem, by simpa using hst⟩, rfl⟩
  · intro doc h
    have hnil : pendingSteps doc = [] := by
      simp only [pendingSteps, List.map_eq_nil_iff, List.filter_eq_nil_iff]
      intro p hp
      simpa using h p hp
    simp only [handle_pending_steps, hnil, List.isEmpty_nil, if_true]
    rw [String.append_assoc]
    rfl

theorem c7_witness :
    handle_pending_steps
        { company := some "Apple",
          steps := some [("KYC", "complete"), ("AccountOpening", "complete")] } =
      "Pending steps for Apple: None" ∧
    ("KYC" ∈ pendingSteps
        { company := some "Apple",
          steps := some [("KYC", "pending"), ("AccountOpening", "complete")] } ↔
      ∃ st, ("KYC", st) ∈ [("KYC", "pending"), ("AccountOpening", "complete")] ∧
        st ≠ "complete") := by
  constructor
  · have := c7_pending_steps.2
      { company := some "Apple",
        steps := some [("KYC", "complete"), ("AccountOpening", "complete")] }
      (by decide)
    simpa using this
  · exact c7_pending_steps.1
      { company := some "Apple",
        steps := some [("KYC", "pending"), ("AccountOpening", "complete")] } "KYC"

/-- C8: identifier extraction returns a substring of at least 6 consecutive
digits bounded by word boundaries at the leftmost qualifying position;
whenever such a run exists it returns one, and an input with no infix of 6
consecutive digits yields absence. -/
theorem c8_identifier_extraction :
    (∀ (s r : String), extract_wcis_id s = some r →
      ∃ a b, s.data = a ++ r.data ++ b ∧ QualRun false a r.data b ∧
        ∀ a' r' b', s.data = a' ++ r' ++ b' → QualRun false a' r' b' →
          a.length ≤ a'.length)
    ∧ (∀ (s : String) (a r b : List Char),
      s.data = a ++ r ++ b → QualRun false a r b → extract_wcis_id s ≠ none)
    ∧ (∀ s : String,
      (∀ l : List Char, l <:+: s.data → (∀ c ∈ l, c.isDigit = true) →
        l.length < 6) →
      extract_wcis_id s = none) := by
  refine ⟨?_, ?_, ?_⟩
  · intro s r h
    rw [extract_wcis_id] at h
    obtain ⟨l, hl, hmk⟩ := Option.map_eq_some'.mp h
    have hld : r.data = l := by rw [← hmk]
    rw [hld]
    exact wcisSearch_sound s.data false l hl
  · intro s a r b hdec hq
    rw [extract_wcis_id]
    intro hnone
    exact wcisSearch_complete s.data false a r b hdec hq
      (Option.map_eq_none'.mp hnone)
  · intro s hshort
    rw [extract_wcis_id]
    cases hs : wcisSearch false s.data with
    | none => rfl
    | some l =>
      exfalso
      obtain ⟨a, b, hdec, ⟨hlen, hdig, _, _⟩, _⟩ :=
        wcisSearch_sound s.data false l hs
      have hinf : l <:+: s.data := ⟨a, b, hdec.symm⟩
      exact absurd (hshort l hinf hdig) (by omega)

/-- C8 witness -/
theorem c8_witness :
    extract_wcis_id "id 1234567." = some "1234567" ∧
    (∃ a b, ("id 1234567.").data = a ++ ("1234567" : String).data ++ b ∧
      QualRun false a ("1234567" : String).data b ∧
      ∀ a' r' b', ("id 1234567.").data = a' ++ r' ++ b' →
        QualRun false a' r' b' → a.length ≤ a'.length) ∧
    extract_wcis_id "ab 1234567" ≠ none ∧
    extract_wcis_id "ab" = none :=
  ⟨by decide,
   c8_identifier_extraction.1 "id 1234567." "1234567" (by decide),
   c8_identifier_extraction.2.1 "ab 1234567" ("ab ".data)
     (("1234567" : String).data) [] (by decide)
     ⟨by decide, by decide, (by decide : isWordChar ' ' = false), by decide⟩,
   c8_identifier_extraction.2.2 "ab" (by
     intro l hinf hdig
     have hle := hinf.length_le
     simp at hle
     omega)⟩

/-- C9: in each variant, whenever the request body raises any failure, the
endpoint returns that variant's fixed apology string, independent of the
failure's class and detail. -/
theorem c9_catch_all :
    (∀ (cfg : List Onb.IntentCfg) (companies labels : List String)
       (simsOf : String → List ℚ) (msg : String) (e : PyErr),
       Onb.handle_query_body cfg companies labels simsOf msg = .error e →
       Onb.handle_query cfg companies labels simsOf msg =
         "An error occurred while processing your request. Please try again later.")
    ∧ (∀ (data : List ClientDoc) (companies labels : List String)
       (simsOf : String → List ℚ) (msg : String) (e : PyErr),
       Corporate.handle_query_body data companies labels simsOf msg = .error e →
       Corporate.handle_query data companies labels simsOf msg =
         "An error occurred while processing your request. Please try again later.")
    ∧ (∀ (data : List Corporate2.Doc2) (names labels : List String)
       (simsOf : String → List ℚ) (msg : String) (e : PyErr),
       Corporate2.handle_query_body data names labels simsOf msg = .error e →
       Corporate2.handle_query data names labels simsOf msg =
         "Oops, something went wrong on my side. Mind trying again in a bit?") := by
  refine ⟨?_, ?_, ?_⟩ <;> intro a b c d e f h <;>
    simp [Onb.handle_query, Corporate.handle_query, Corporate2.handle_query, h]

theorem c9_witness :
    Corporate.handle_query_body [{company := some "Acme"}] [] ["onboarding_status"]
        (fun _ => [1]) "check 123456" = .error ("KeyError", "wcis_id") ∧
    Corporate.handle_query [{company := some "Acme"}] [] ["onboarding_status"]
        (fun _ => [1]) "check 123456" =
      "An error occurred while processing your request. Please try again later." ∧
    Onb.handle_query_body [] [] [] (fun _ => []) "x" =
      .error ("ValueError", "attempt to get argmax of an empty sequence") ∧
    Onb.handle_query [] [] [] (fun _ => []) "x" =
      "An error occurred while processing your request. Please try again later." ∧
    Corporate2.handle_query_body [] [] [] (fun _ => [1]) "status please" =
      .error ("IndexError", "list index out of range") ∧
    Corporate2.handle_query [] [] [] (fun _ => [1]) "status please" =
      "Oops, something went wrong on my side. Mind trying again in a bit?" :=
  ⟨rfl, c9_catch_all.2.1 [{company := some "Acme"}] [] ["onboarding_status"]
      (fun _ => [1]) "check 123456" ("KeyError", "wcis_id") rfl,
   rfl, c9_catch_all.1 [] [] [] (fun _ => []) "x"
      ("ValueError", "attempt to get argmax of an empty sequence") rfl,
   rfl, c9_catch_all.2.2 [] [] [] (fun _ => [1]) "status please"
      ("IndexError", "list index out of range") rfl⟩

/-- C10: for the who_is_customer intent, when a record is matched with no
identifier extracted, the renderer is still invoked with the absent
identifier and the response interpolates the absence value "None"; no guard
requires an identifier. -/
theorem c10_who_is_customer_none_id :
    (∀ (cfg : List Onb.IntentCfg) (companies labels : List String)
       (simsOf : String → List ℚ) (msg : String) (conf : ℚ)
       (meta : Onb.IntentCfg) (d : ClientDoc),
      classifyIntent labels simsOf msg = .ok ("who_is_customer", conf) →
      extract_wcis_id msg = none →
      cfg.find? (fun item => item.intent == "who_is_customer") = some meta →
      Onb.find_one meta.store
        (Onb.buildQuery none (extract_company companies msg)) = some d →
      Onb.handle_query_body cfg companies labels simsOf msg =
        .ok ("WCIS ID None belongs to " ++ (d.company.getD "Unknown")))
    ∧ (∀ (data : List Corporate2.Doc2) (names labels : List String)
       (simsOf : String → List ℚ) (msg : String) (conf : ℚ) (d : Corporate2.Doc2),
      Corporate2.small_talk_responses.find?
        (fun p => containsSub p.1 (pyStrip (pyLower msg))) = none →
      classifyIntent labels simsOf (pyStrip (pyLower msg)) =
        .ok ("who_is_customer", conf) →
      extract_wcis_id (pyStrip (pyLower msg)) = none →
      Corporate2.findDoc data none
        (extract_legal_entity names (pyStrip (pyLower msg))) = some d →
      Corporate2.handle_query_body data names labels simsOf msg =
        .ok ("Got it! WCIS ID None is linked to " ++ (d.legalEntityName.getD "Unknown")
          ++ ". Anything else you'd like to know about them?")) := by
  constructor
  · intro cfg companies labels simsOf msg conf meta d hcl hex hmeta hfind
    simp only [Onb.handle_query_body, hcl, hex, hmeta, hfind]
    simp [handle_who_is_customer, pyStrOpt]
  · intro data names labels simsOf msg conf d hsmall hcl hex hfind
    simp only [Corporate2.handle_query_body, hsmall, hcl, hex, hfind]
    simp [Corporate2.handle_who_is_customer, pyStrOpt]


/-- C10 witness -/
theorem c10_witness :
    Onb.handle_query_body
        [⟨"who_is_customer", [{ company := some "Apple", wcis_id := some "123456" }]⟩]
        ["Apple"] ["who_is_customer"] (fun _ => [1]) "who is Apple" =
      .ok ("WCIS ID None belongs to " ++
        (({ company := some "Apple", wcis_id := some "123456" } :
          ClientDoc).company.getD "Unknown")) ∧
    Corporate2.handle_query_body
        [{ wcisId := some "777777", legalEntityName := some "Initech" }]
        ["Initech"] ["who_is_customer"] (fun _ => [1]) "who is initech" =
      .ok ("Got it! WCIS ID None is linked to " ++
        (({ wcisId := some "777777", legalEntityName := some "Initech" } :
          Corporate2.Doc2).legalEntityName.getD "Unknown")
        ++ ". Anything else you'd like to know about them?") :=
  ⟨c10_who_is_customer_none_id.1
      [⟨"who_is_customer", [{ company := some "Apple", wcis_id := some "123456" }]⟩]
      ["Apple"] ["who_is_customer"] (fun _ => [1]) "who is Apple" 1
      ⟨"who_is_customer", [{ company := some "Apple", wcis_id := some "123456" }]⟩
      { company := some "Apple", wcis_id := some "123456" } rfl rfl rfl rfl,
   c10_who_is_customer_none_id.2
      [{ wcisId := some "777777", legalEntityName := some "Initech" }]
      ["Initech"] ["who_is_customer"] (fun _ => [1]) "who is initech" 1
      { wcisId := some "777777", legalEntityName := some "Initech" }
      rfl rfl rfl rfl⟩
